import Mathlib

/-
Verification of the ai-task-planning-agent repository.
The Python sources (src/utils/planner.py, src/utils/tools.py,
src/utils/database.py, src/main.py) are shallowly embedded below:
pure functions become Lean functions, Python exceptions become
Except String, the json module's values become the Json inductive,
and external effects (the LLM provider, HTTP requests) become
explicit oracle parameters.
-/

namespace Planner

/-- JSON-like values: the Python objects handled by the json module and
passed around as dictionaries in the application. Numbers are modelled as
integers (no float literal appears in the repository's data paths). -/
inductive Json where
  | null
  | bool (b : Bool)
  | num (n : Int)
  | str (s : String)
  | arr (xs : List Json)
  | obj (kvs : List (String × Json))

/-- A Python dict with string keys, as an insertion-ordered association list. -/
abbrev PyDict := List (String × Json)

/-- Python truthiness of a value (used by `if plan_info.get('location'):` and
`if enrichment_data.get('weather')`). -/
def truthy : Json → Bool
  | .null => false
  | .bool b => b
  | .num n => n != 0
  | .str s => s != ""
  | .arr xs => !xs.isEmpty
  | .obj kvs => !kvs.isEmpty

/-- Python dict assignment d[k] = v: overwrite an existing key, else append. -/
def dictSet (d : PyDict) (k : String) (v : Json) : PyDict :=
  if d.any (fun kv => kv.1 = k) then d.map (fun kv => if kv.1 = k then (k, v) else kv)
  else d ++ [(k, v)]

/-- Whether pat occurs at the head of l. -/
def leadsWith : List Char → List Char → Bool
  | [], _ => true
  | _ :: _, [] => false
  | a :: as, b :: bs => a == b && leadsWith as bs

/-- Whether needle occurs as a contiguous sublist of hay
(Python's `needle in hay` on strings). -/
def occursIn (needle : List Char) : List Char → Bool
  | [] => needle.isEmpty
  | c :: t => leadsWith needle (c :: t) || occursIn needle t

/-- Python `sub in s` substring test. -/
def containsSub (needle hay : String) : Bool :=
  occursIn needle.toList hay.toList

/-- Index of the first occurrence of pat in cs, if any. -/
def firstOccIdx (pat : List Char) : List Char → Option Nat
  | [] => if pat.isEmpty then some 0 else none
  | c :: t =>
    if leadsWith pat (c :: t) then some 0
    else (firstOccIdx pat t).map (· + 1)

/-- Index of the last occurrence of pat in cs, if any. -/
def lastOccIdx (pat : List Char) (cs : List Char) : Option Nat :=
  ((List.range (cs.length + 1)).filter (fun i => leadsWith pat (cs.drop i))).getLast?

/-- Python str.lower() on the characters this application meets:
ASCII letters and the Cyrillic letters of the marker 'день'. -/
def pyLowerChar (c : Char) : Char :=
  if 65 ≤ c.toNat ∧ c.toNat ≤ 90 then Char.ofNat (c.toNat + 32)
  else if 1040 ≤ c.toNat ∧ c.toNat ≤ 1071 then Char.ofNat (c.toNat + 32)
  else if c.toNat = 1025 then Char.ofNat 1105
  else c

/-- Python str.lower() on a string. -/
def pyLowerStr (s : String) : String := ⟨s.toList.map pyLowerChar⟩

/-- Python str.strip() whitespace class. -/
def pySpace (c : Char) : Bool :=
  c == ' ' || c == '\t' || c == '\n' || c == '\r' || c == Char.ofNat 11 || c == Char.ofNat 12

/-- Strip whitespace from both ends of a character list. -/
def trimChars (l : List Char) : List Char :=
  ((l.dropWhile pySpace).reverse.dropWhile pySpace).reverse

/-- Python str.strip(). -/
def pyStrip (s : String) : String := ⟨trimChars s.toList⟩

/-- Split a character list on a newline character (Python str.split of a string). -/
def splitCharsOnNl : List Char → List (List Char)
  | [] => [[]]
  | c :: t =>
    if c = '\n' then [] :: splitCharsOnNl t
    else
      match splitCharsOnNl t with
      | [] => [[c]]
      | h :: r => (c :: h) :: r

/-- Python `response.split('\n')`. -/
def pySplitLines (s : String) : List String :=
  (splitCharsOnNl s.toList).map (fun l => ⟨l⟩)

/-- The character set of `line.lstrip('0123456789.-• ')`. -/
def stepStripChars : List Char := "0123456789.-• ".toList

/-- Python `line.lstrip('0123456789.-• ')`. -/
def lstripSet (s : String) : String :=
  ⟨s.toList.dropWhile (fun c => stepStripChars.contains c)⟩

/-- Python slicing `s[:n]` (by characters). -/
def pyTake (n : Nat) (s : String) : String := ⟨s.toList.take n⟩

/-- Opening brace character (written numerically). -/
def braceO : Char := Char.ofNat 123

/-- Closing brace character (written numerically). -/
def braceC : Char := Char.ofNat 125

mutual

/-- Python repr() of a value, as f-strings and str() render containers. -/
def pyRepr : Json → String
  | .null => "None"
  | .bool true => "True"
  | .bool false => "False"
  | .num n => toString n
  | .str s => "'" ++ s ++ "'"
  | .arr xs => "[" ++ pyReprList xs ++ "]"
  | .obj kvs => "\x7b" ++ pyReprObj kvs ++ "\x7d"

/-- Comma-joined reprs of the elements of a list. -/
def pyReprList : List Json → String
  | [] => ""
  | [x] => pyRepr x
  | x :: y :: r => pyRepr x ++ ", " ++ pyReprList (y :: r)

/-- Comma-joined reprs of the entries of a dict. -/
def pyReprObj : List (String × Json) → String
  | [] => ""
  | [kv] => "'" ++ kv.1 ++ "': " ++ pyRepr kv.2
  | kv :: kw :: r => "'" ++ kv.1 ++ "': " ++ pyRepr kv.2 ++ ", " ++ pyReprObj (kw :: r)

end

/-- Python str() of a value, as used by f-string interpolation. -/
def pyStr : Json → String
  | .str s => s
  | j => pyRepr j

/-- JSON whitespace accepted between tokens by json.loads. -/
def jsonWs (c : Char) : Bool :=
  c == ' ' || c == '\t' || c == '\n' || c == '\r'

/-- Drop leading JSON whitespace. -/
def skipWs (cs : List Char) : List Char := cs.dropWhile jsonWs

/-- Parse the body of a JSON string literal (after the opening quote),
returning the decoded string and the rest of the input. -/
def parseStringBody : List Char → Option (String × List Char)
  | [] => none
  | c :: rest =>
    if c = '"' then some ("", rest)
    else if c = '\\' then
      match rest with
      | [] => none
      | e :: rest2 =>
        let esc : Option Char :=
          if e = '"' then some '"'
          else if e = '\\' then some '\\'
          else if e = '/' then some '/'
          else if e = 'n' then some '\n'
          else if e = 't' then some '\t'
          else if e = 'r' then some '\r'
          else if e = 'b' then some (Char.ofNat 8)
          else if e = 'f' then some (Char.ofNat 12)
          else none
        match esc with
        | some ch => (parseStringBody rest2).map (fun sp => (⟨ch :: sp.1.toList⟩, sp.2))
        | none => none
    else (parseStringBody rest).map (fun sp => (⟨c :: sp.1.toList⟩, sp.2))

/-- Numeric value of a digit list. -/
def digitsToNat (ds : List Char) : Nat :=
  ds.foldl (fun a c => a * 10 + (c.toNat - 48)) 0

/-- Parse a run of digits as a natural number. Continuations that would start a
float literal are rejected: no float occurs in this repository's data. -/
def parseNatTok (cs : List Char) : Option (Nat × List Char) :=
  let ds := cs.takeWhile Char.isDigit
  let rest := cs.dropWhile Char.isDigit
  if ds.isEmpty then none
  else
    match rest with
    | c :: _ => if c = '.' ∨ c = 'e' ∨ c = 'E' then none else some (digitsToNat ds, rest)
    | [] => some (digitsToNat ds, rest)

mutual

/-- Recursive-descent json.loads value parser; the fuel argument bounds
recursion depth and iteration and is chosen large enough at the top level. -/
def parseValue : Nat → List Char → Except String (Json × List Char)
  | 0, _ => .error "RecursionError"
  | n + 1, cs =>
    match skipWs cs with
    | [] => .error "Expecting value"
    | c :: rest =>
      if c = braceO then parseObjStart n rest
      else if c = '[' then parseArrStart n rest
      else if c = '"' then
        match parseStringBody rest with
        | some sp => .ok (.str sp.1, sp.2)
        | none => .error "Unterminated string"
      else if c = 't' then
        if leadsWith ['r', 'u', 'e'] rest then .ok (.bool true, rest.drop 3)
        else .error "Expecting value"
      else if c = 'f' then
        if leadsWith ['a', 'l', 's', 'e'] rest then .ok (.bool false, rest.drop 4)
        else .error "Expecting value"
      else if c = 'n' then
        if leadsWith ['u', 'l', 'l'] rest then .ok (.null, rest.drop 3)
        else .error "Expecting value"
      else if c = '-' then
        match parseNatTok rest with
        | some np => .ok (.num (-(np.1 : Int)), np.2)
        | none => .error "Expecting value"
      else if c.isDigit then
        match parseNatTok (c :: rest) with
        | some np => .ok (.num (np.1 : Int), np.2)
        | none => .error "Expecting value"
      else .error "Expecting value"

/-- Parse an object just after its opening brace. -/
def parseObjStart : Nat → List Char → Except String (Json × List Char)
  | 0, _ => .error "RecursionError"
  | n + 1, cs =>
    match skipWs cs with
    | [] => .error "Expecting property name enclosed in double quotes"
    | c :: rest =>
      if c = braceC then .ok (.obj [], rest)
      else if c = '"' then
        match parseStringBody rest with
        | some kp => parseObjRest n kp.2 kp.1 []
        | none => .error "Unterminated string"
      else .error "Expecting property name enclosed in double quotes"

/-- Parse the remainder of an object after a key has been read: a colon, a
value, then either a comma and another member or the closing brace. Duplicate
keys overwrite earlier ones, as in Python. -/
def parseObjRest : Nat → List Char → String → List (String × Json) →
    Except String (Json × List Char)
  | 0, _, _, _ => .error "RecursionError"
  | n + 1, cs, key, acc =>
    match skipWs cs with
    | [] => .error "Expecting colon"
    | c :: rest =>
      if c = ':' then
        match parseValue n rest with
        | .error e => .error e
        | .ok vp =>
          let acc2 := dictSet acc key vp.1
          match skipWs vp.2 with
          | [] => .error "Expecting comma"
          | d :: rest2 =>
            if d = ',' then
              match skipWs rest2 with
              | [] => .error "Expecting property name enclosed in double quotes"
              | q :: rest3 =>
                if q = '"' then
                  match parseStringBody rest3 with
                  | some kp => parseObjRest n kp.2 kp.1 acc2
                  | none => .error "Unterminated string"
                else .error "Expecting property name enclosed in double quotes"
            else if d = braceC then .ok (.obj acc2, rest2)
            else .error "Expecting comma"
      else .error "Expecting colon"

/-- Parse an array just after its opening bracket. -/
def parseArrStart : Nat → List Char → Except String (Json × List Char)
  | 0, _ => .error "RecursionError"
  | n + 1, cs =>
    match skipWs cs with
    | [] => .error "Expecting value"
    | c :: _ =>
      if c = ']' then .ok (.arr [], (skipWs cs).drop 1)
      else
        match parseValue n cs with
        | .error e => .error e
        | .ok vp => parseArrRest n vp.2 [vp.1]

/-- Parse the remainder of an array after at least one element. -/
def parseArrRest : Nat → List Char → List Json → Except String (Json × List Char)
  | 0, _, _ => .error "RecursionError"
  | n + 1, cs, acc =>
    match skipWs cs with
    | [] => .error "Expecting comma"
    | c :: rest =>
      if c = ',' then
        match parseValue n rest with
        | .error e => .error e
        | .ok vp => parseArrRest n vp.2 (acc ++ [vp.1])
      else if c = ']' then .ok (.arr acc, rest)
      else .error "Expecting comma"

end

/-- Python json.loads: parse one value and require only whitespace after it. -/
def jsonLoads (s : String) : Except String Json :=
  match parseValue (2 * s.toList.length + 16) s.toList with
  | .error e => .error e
  | .ok vp => if (skipWs vp.2).isEmpty then .ok vp.1 else .error "Extra data"

/-- The semantics of `re.search(r'{{.*}}', response, re.DOTALL)`: in Python's
re, braces not forming a quantifier are literals, so the pattern demands a
literal double brace, anything (greedy, newlines included), then a literal
double closing brace. The leftmost-greedy match runs from the first "{{" to
just past the last non-overlapping "}}", when such a pair exists. -/
def matchDoubleBrace (s : String) : Option String :=
  match firstOccIdx [braceO, braceO] s.toList, lastOccIdx [braceC, braceC] s.toList with
  | some i, some j =>
    if i + 2 ≤ j then some ⟨(s.toList.drop i).take (j + 2 - i)⟩ else none
  | _, _ => none

/-- planner.PlanStep: a single step in a plan. -/
structure PlanStep where
  step_number : Nat
  title : String
  description : String
  time : Option String
  location : Option String
  additional_info : Option Json

/-- planner.DayPlan: one day of a plan. -/
structure DayPlan where
  day_number : Nat
  theme : String
  steps : List PlanStep
  date : Option String
  weather_info : Option Json

/-- planner.TaskPlan: a complete task plan. -/
structure TaskPlan where
  goal : String
  created_at : String
  total_days : Nat
  days : List DayPlan
  metadata : Json

/-- An HTTP response as the tools see it: status code and body text. -/
structure HttpResp where
  status : Nat
  body : String

/-- The record WebSearchTool.search appends for index i: a fixed template of
the query and the index only. -/
def searchTemplate (query : String) (i : Nat) : Json :=
  Json.obj
    [("title", .str ("Result " ++ toString (i + 1) ++ " for: " ++ query)),
     ("snippet", .str ("Information about " ++ query ++ " from web search.")),
     ("url", .str ("https://example.com/" ++ toString i))]

/-- tools.WebSearchTool.search. The outcome of requests.get is the http
parameter; an exception there is caught (st.warning) and [] is returned. On a
200 response the body is bound to a local that is never read, and
min(num_results, 3) template records are returned; any other status returns
the initial empty list. -/
def searchRun (query : String) (numResults : Nat) (http : Except String HttpResp) :
    List Json :=
  match http with
  | .error _ => []
  | .ok resp =>
    let _text := resp.body
    if resp.status = 200 then (List.range (min numResults 3)).map (searchTemplate query)
    else []

/-- Python dict with an error message, `\x7b'error': msg\x7d`. -/
def errObj (msg : String) : Json := Json.obj [("error", .str msg)]

/-- The mock forecast WeatherTool.get_forecast returns for the "demo" key. -/
def mockForecast (location : String) (days : Nat) : Json :=
  Json.obj
    [("location", .str location),
     ("forecast", .arr ((List.range days).map (fun i =>
        Json.obj [("day", .num ((i : Int) + 1)), ("temp", .num (25 + (i : Int))),
                  ("condition", .str "Clear")])))]

/-- Python dict indexing `j[k]`: KeyError when the key is absent. -/
def pySub (j : Json) (k : String) : Except String Json :=
  match j with
  | .obj kvs =>
    match kvs.lookup k with
    | some v => .ok v
    | none => .error ("KeyError: " ++ k)
  | _ => .error "TypeError: not subscriptable"

/-- Python list indexing `j[i]` for a non-negative index. -/
def pyIdx (j : Json) (i : Nat) : Except String Json :=
  match j with
  | .arr xs =>
    match xs.get? i with
    | some v => .ok v
    | none => .error "IndexError: list index out of range"
  | _ => .error "TypeError: not subscriptable"

/-- Python `j[-1]`. -/
def pyLast (j : Json) : Except String Json :=
  match j with
  | .arr xs =>
    match xs.getLast? with
    | some v => .ok v
    | none => .error "IndexError: list index out of range"
  | _ => .error "TypeError: not subscriptable"

/-- Python len(). -/
def pyLen (j : Json) : Except String Nat :=
  match j with
  | .arr xs => .ok xs.length
  | .str s => .ok s.toList.length
  | .obj kvs => .ok kvs.length
  | _ => .error "TypeError: object has no len"

/-- One entry built by WeatherTool._process_forecast from a raw 3-hourly item. -/
def forecastEntry (dayData : Json) (i : Nat) : Except String Json := do
  let m ← pySub dayData "main"
  let t ← pySub m "temp"
  let w ← pySub dayData "weather"
  let w0 ← pyIdx w 0
  let d ← pySub w0 "description"
  let h ← pySub m "humidity"
  pure (Json.obj [("day", .num ((i : Int) + 1)), ("temp", t), ("condition", d),
                  ("humidity", h)])

/-- The loop of WeatherTool._process_forecast over day indexes. -/
def processForcastAux (data : Json) : List Nat → Except String (List Json)
  | [] => .ok []
  | i :: is => do
    let lst ← pySub data "list"
    let n ← pyLen lst
    let dayData ← if i * 8 < n then pyIdx lst (i * 8) else pyLast lst
    let e ← forecastEntry dayData i
    let rest ← processForcastAux data is
    pure (e :: rest)

/-- tools.WeatherTool._process_forecast. -/
def processForcast (data : Json) (days : Nat) : Except String Json := do
  let entries ← processForcastAux data (List.range days)
  let city ← pySub data "city"
  let name ← pySub city "name"
  pure (Json.obj [("location", name), ("forecast", .arr entries)])

/-- The try-block of WeatherTool.get_forecast, before the except clause:
the Except layer is a raised exception, the Nat counts HTTP requests made. -/
def getForecastTry (apiKey location : String) (days : Nat)
    (http : Except String HttpResp) : Except String Json × Nat :=
  if apiKey = "demo" then (.ok (mockForecast location days), 0)
  else
    match http with
    | .error e => (.error e, 1)
    | .ok resp =>
      if resp.status = 200 then
        (match jsonLoads resp.body with
         | .error e => .error e
         | .ok data => processForcast data days, 1)
      else (.ok (errObj "Weather data unavailable"), 1)

/-- tools.WeatherTool.get_forecast: the whole body runs inside
`try: ... except Exception as e: return \x7b'error': str(e)\x7d`, so every
exception is converted into an error dictionary return value. -/
def getForecastRun (apiKey location : String) (days : Nat)
    (http : Except String HttpResp) : Json × Nat :=
  match getForecastTry apiKey location days http with
  | (.ok v, n) => (v, n)
  | (.error e, n) => (errObj e, n)

/-- Json rendering of an optional string field (asdict on a dataclass). -/
def optStr : Option String → Json
  | none => .null
  | some s => .str s

/-- asdict(step) inside DatabaseManager.save_plan. -/
def stepDict (s : PlanStep) : Json :=
  Json.obj
    [("step_number", .num (s.step_number : Int)), ("title", .str s.title),
     ("description", .str s.description), ("time", optStr s.time),
     ("location", optStr s.location),
     ("additional_info", s.additional_info.getD .null)]

/-- The per-day dictionary built inside DatabaseManager.save_plan. -/
def dayDict (d : DayPlan) : Json :=
  Json.obj
    [("day_number", .num (d.day_number : Int)), ("date", optStr d.date),
     ("theme", .str d.theme), ("steps", .arr (d.steps.map stepDict)),
     ("weather_info", d.weather_info.getD .null)]

/-- plan_dict inside DatabaseManager.save_plan: the nested dictionary
serialization of a TaskPlan. -/
def planDict (p : TaskPlan) : Json :=
  Json.obj
    [("goal", .str p.goal), ("created_at", .str p.created_at),
     ("total_days", .num (p.total_days : Int)),
     ("days", .arr (p.days.map dayDict)), ("metadata", p.metadata)]

/-- The part of an integer literal after the optional sign: a non-empty run
of digits followed only by trailing whitespace, with the value inside the
64-bit signed range of the INTEGER storage class. -/
def intLitCore (l : List Char) (neg : Bool) : Option Int :=
  if (l.takeWhile Char.isDigit).isEmpty then none
  else if ((l.dropWhile Char.isDigit).dropWhile pySpace).isEmpty then
    (if neg then
      (if digitsToNat (l.takeWhile Char.isDigit) ≤ 9223372036854775808 then
        some (-(digitsToNat (l.takeWhile Char.isDigit) : Int))
      else none)
    else
      (if digitsToNat (l.takeWhile Char.isDigit) ≤ 9223372036854775807 then
        some ((digitsToNat (l.takeWhile Char.isDigit) : Int))
      else none))
  else none

/-- The integer a text value denotes as a well-formed integer literal, per
SQLite's text-to-number conversion (checked against sqlite3): optional
leading whitespace, one optional sign immediately followed by the digits,
optional trailing whitespace, nothing else; leading zeros are accepted
(" +42 ", "007", "-0" all convert), "+ 7", "123abc", "0x1A" do not. -/
def intLitVal (s : String) : Option Int :=
  if (s.toList.dropWhile pySpace).head? = some '-' then
    intLitCore (s.toList.dropWhile pySpace).tail true
  else if (s.toList.dropWhile pySpace).head? = some '+' then
    intLitCore (s.toList.dropWhile pySpace).tail false
  else
    intLitCore (s.toList.dropWhile pySpace) false

/-- SQLite NUMERIC affinity applied to text inserted into the created_at
TIMESTAMP column: a well-formed integer literal is stored as INTEGER and read
back as a Python int; other text is kept verbatim. Text that is a real
literal ("12.0", "12e2") or an integer literal beyond the 64-bit range is
stored by SQLite as REAL (sometimes demoted back to INTEGER when exact); this
model has no REAL storage class and keeps such text as text — no created_at
produced by the repository takes that form, and the theorems below evaluate
numericAffinity only on integer-literal or clearly non-numeric text. -/
def numericAffinity (s : String) : Json :=
  match intLitVal s with
  | some n => .num n
  | none => .str s

/-- Characters that can appear in numeric-looking text: anything else in the
string guarantees SQLite keeps the text verbatim under NUMERIC affinity. -/
def numishChar (c : Char) : Bool :=
  c.isDigit || c == '-' || c == '+' || c == '.' || c == 'e' || c == 'E' || pySpace c

/-- The string contains a clearly non-numeric character, so it is stored as
TEXT unchanged. Every datetime.isoformat() timestamp contains ':' and 'T',
hence satisfies this. -/
def textPreserved (s : String) : Bool := s.toList.any (fun c => !numishChar c)

/-- One row of the plans table. The TEXT columns plan_data and metadata hold
json.dumps output and every read passes them back through json.loads; the
json module round-trip is modelled by storing the Json value itself. The
created_at column is declared TIMESTAMP, which has NUMERIC affinity, so it
holds the affinity-converted value of the inserted text, not necessarily the
text itself. -/
structure DbRow where
  goal : String
  created_at : Json
  plan_data : Json
  metadata : Json

/-- The plans table. The table is insert-only (no delete exists in the
repository), so the AUTOINCREMENT id of a row is its position plus one. -/
abbrev Db := List DbRow

/-- database.DatabaseManager.save_plan: insert a row and return lastrowid.
The goal parameter binds to a TEXT column (stored verbatim); the created_at
text goes through the TIMESTAMP column's NUMERIC affinity. -/
def savePlan (p : TaskPlan) (db : Db) : Nat × Db :=
  (db.length + 1, db ++ [⟨p.goal, numericAffinity p.created_at, planDict p, p.metadata⟩])

/-- database.DatabaseManager.get_plan_by_id: select the row WHERE id = ?, or
None. The metadata column is json.dumps output, hence a non-empty (truthy)
string, so the `if row[4]` guard always takes the loads branch. -/
def getPlanById (planId : Nat) (db : Db) : Option Json :=
  match planId with
  | 0 => none
  | i + 1 =>
    (db.get? i).map (fun r =>
      Json.obj
        [("id", .num ((i : Int) + 1)), ("goal", .str r.goal),
         ("created_at", r.created_at), ("plan", r.plan_data),
         ("metadata", r.metadata)])

/-- The hard-coded fallback of TaskPlanner._analyze_goal. -/
def fallbackInfo : PyDict :=
  [("duration_days", .num 1), ("location", .null), ("type", .str "general"),
   ("key_themes", .arr [.str "general planning"])]

/-- TaskPlanner._analyze_goal as a function of the LLM response: search the
response for r'{{.*}}' (re.DOTALL); on a match return json.loads of the
matched text (a raised json error propagates, there is no try around it in
utils/planner.py), otherwise return the fallback dictionary. -/
def analyzeGoal (response : String) : Except String Json :=
  match matchDoubleBrace response with
  | some m =>
    match jsonLoads m with
    | .ok v => .ok v
    | .error e => .error e
  | none => .ok (Json.obj fallbackInfo)

/-- An invocation of one of the two tools, in execution order. -/
inductive ToolCall where
  | search (query : String) (numResults : Nat)
  | forecast (location : Json) (days : Json)

/-- Python iteration over a value, as `for theme in plan_info.get('key_themes', [])`
behaves: lists yield elements, strings yield one-character strings, dicts
yield their keys, anything else raises TypeError. -/
def iterElems : Json → Except String (List Json)
  | .arr xs => .ok xs
  | .str s => .ok (s.toList.map (fun c => .str ⟨[c]⟩))
  | .obj kvs => .ok (kvs.map (fun kv => .str kv.1))
  | _ => .error "TypeError: object is not iterable"

/-- The search calls issued by the key_themes loop, one per entry. -/
def themeCalls (themes : List Json) : List ToolCall :=
  themes.map (fun t => .search (pyStr t ++ " tips recommendations") 3)

/-- The key_themes loop of TaskPlanner._gather_information: one web search per
theme, stored under the key "theme_" followed by the theme. -/
def gatherThemes (searchFn : String → Nat → Json) (themes : List Json)
    (dataAcc : PyDict) (callsAcc : List ToolCall) : PyDict × List ToolCall :=
  match themes with
  | [] => (dataAcc, callsAcc)
  | t :: ts =>
    let q := pyStr t ++ " tips recommendations"
    let r := searchFn q 3
    gatherThemes searchFn ts (dictSet dataAcc ("theme_" ++ pyStr t) r)
      (callsAcc ++ [.search q 3])

/-- TaskPlanner._gather_information, instrumented with the list of tool calls
it makes. The tools themselves are the searchFn / weatherFn parameters. When
plan_info.get('location') is truthy, the location is present, so
plan_info['location'] is that same value. -/
def gatherInformation (searchFn : String → Nat → Json) (weatherFn : Json → Json → Json)
    (goal : String) (planInfo : Json) : Except String (PyDict × List ToolCall) :=
  match planInfo with
  | .obj info =>
    let locv := (info.lookup "location").getD .null
    let start : PyDict × List ToolCall :=
      if truthy locv then
        let q := pyStr locv ++ " attractions food culture"
        let sr := searchFn q 5
        let wdays := (info.lookup "duration_days").getD (.num 1)
        let w := weatherFn locv wdays
        (dictSet (dictSet [] "search_results" sr) "weather" w,
         [.search q 5, .forecast locv wdays])
      else ([], [])
    match iterElems ((info.lookup "key_themes").getD (.arr [])) with
    | .error e => .error e
    | .ok ts => .ok (gatherThemes searchFn ts start.1 start.2)
  | _ => .error "AttributeError: object has no attribute get"

/-- The parser state of TaskPlanner._parse_plan_response: accumulated days,
the open day's theme line, its accumulated steps, and the two counters. -/
structure ParseState where
  days : List DayPlan
  current_day : Option String
  current_steps : List PlanStep
  day_counter : Nat
  step_counter : Nat

/-- The initial parser state. -/
def st0 : ParseState := ⟨[], none, [], 1, 1⟩

/-- The expression
`enrichment_data.get('weather', \x7b\x7d).get('forecast', [\x7b\x7d])[day_counter-1]
if enrichment_data.get('weather') else None`. The indexing raises IndexError
when the forecast list is shorter than day_counter. -/
def weatherInfoExpr (enrich : PyDict) (dayCounter : Nat) : Except String (Option Json) :=
  if truthy ((enrich.lookup "weather").getD .null) then
    match (enrich.lookup "weather").getD (.obj []) with
    | .obj kvs =>
      match (kvs.lookup "forecast").getD (.arr [.obj []]) with
      | .arr xs =>
        match xs.get? (dayCounter - 1) with
        | some x => .ok (some x)
        | none => .error "IndexError: list index out of range"
      | _ => .error "TypeError: not subscriptable"
    | _ => .error "AttributeError: object has no attribute get"
  else .ok none

/-- Day-marker detection:
`any(marker in line.lower() for marker in ['day', 'день'])`. -/
def isDayMarker (line : String) : Bool :=
  (["day", "день"] : List String).any (fun m => containsSub m (pyLowerStr line))

/-- Step detection: `any(char in line for char in ['1.', '2.', '3.', '•', '-'])`
— a SUBSTRING test anywhere in the line, despite the variable name char. -/
def hasStepMarker (line : String) : Bool :=
  (["1.", "2.", "3.", "•", "-"] : List String).any (fun m => containsSub m line)

/-- The claim's step condition, as the specification words it: the line starts
with a decimal digit or with a bullet character. -/
def startsDigitOrBullet (line : String) : Bool :=
  match line.toList with
  | [] => false
  | c :: _ => c.isDigit || c == '•' || c == '-'

/-- The step record appended for a detected step line. -/
def mkStep (stepCounter : Nat) (line : String) : PlanStep :=
  ⟨stepCounter, "Step " ++ toString stepCounter, lstripSet line, none, none, none⟩

/-- One iteration of the line loop of TaskPlanner._parse_plan_response. The
theme line stored in current_day is never empty, so Python's
`if current_day and current_steps` is the two matches below. -/
def processLine (enrich : PyDict) (st : ParseState) (rawLine : String) :
    Except String ParseState :=
  let line := pyStrip rawLine
  if line = "" then .ok st
  else if isDayMarker line then
    match st.current_day, st.current_steps with
    | some d, s :: ss =>
      match weatherInfoExpr enrich st.day_counter with
      | .error e => .error e
      | .ok wi =>
        .ok ⟨st.days ++ [⟨st.day_counter, d, s :: ss, none, wi⟩], some line, [],
             st.day_counter + 1, 1⟩
    | _, _ => .ok ⟨st.days, some line, st.current_steps, st.day_counter, 1⟩
  else if hasStepMarker line then
    .ok ⟨st.days, st.current_day,
         st.current_steps ++ [mkStep st.step_counter line], st.day_counter,
         st.step_counter + 1⟩
  else .ok st

/-- The whole line loop. -/
def processLines (enrich : PyDict) : ParseState → List String → Except String ParseState
  | st, [] => .ok st
  | st, l :: ls =>
    match processLine enrich st l with
    | .error e => .error e
    | .ok st2 => processLines enrich st2 ls

/-- The `# Add last day` block after the loop. -/
def closeLast (enrich : PyDict) (st : ParseState) : Except String (List DayPlan) :=
  match st.current_day, st.current_steps with
  | some d, s :: ss =>
    match weatherInfoExpr enrich st.day_counter with
    | .error e => .error e
    | .ok wi => .ok (st.days ++ [⟨st.day_counter, d, s :: ss, none, wi⟩])
  | _, _ => .ok st.days

/-- The fallback day list used when no days were parsed. -/
def fallbackDays (response : String) : List DayPlan :=
  [⟨1, "Day 1: Main Plan", [⟨1, "Complete Plan", pyTake 500 response, none, none, none⟩],
    none, none⟩]

/-- The TaskPlan built when no days were parsed. -/
def fallbackPlan (goal response : String) (planInfo : Json) (now : String) : TaskPlan :=
  ⟨goal, now, 1, fallbackDays response, planInfo⟩

/-- TaskPlanner._parse_plan_response. datetime.now().isoformat() is the now
parameter. -/
def parsePlanResponse (goal response : String) (planInfo : Json) (enrich : PyDict)
    (now : String) : Except String TaskPlan :=
  match processLines enrich st0 (pySplitLines response) with
  | .error e => .error e
  | .ok st =>
    match closeLast enrich st with
    | .error e => .error e
    | .ok ds =>
      let days := if ds.isEmpty then fallbackDays response else ds
      .ok ⟨goal, now, days.length, days, planInfo⟩

/-- Whether some line of the response is detected as a day marker. -/
def hasMarkerLine (resp : String) : Bool :=
  (pySplitLines resp).any (fun l => (pyStrip l != "") && isDayMarker (pyStrip l))

/-- Whether some line of the response is detected as a step. -/
def hasStepLine (resp : String) : Bool :=
  (pySplitLines resp).any (fun l =>
    (pyStrip l != "") && !isDayMarker (pyStrip l) && hasStepMarker (pyStrip l))

/-- TaskPlanner.plan, instrumented with the number of LLMManager.generate
calls made. The llm oracle yields the response to the n-th generate call; the
prompt strings are built by total f-string formatting and do not influence
control flow, so they are not reconstructed here. A raised exception aborts
the pipeline with the count reached so far. -/
def planRun (llm : Nat → String) (searchFn : String → Nat → Json)
    (weatherFn : Json → Json → Json) (goal now : String) :
    Except String TaskPlan × Nat :=
  match analyzeGoal (llm 0) with
  | .error e => (.error e, 1)
  | .ok info =>
    match gatherInformation searchFn weatherFn goal info with
    | .error e => (.error e, 1)
    | .ok gathered =>
      (parsePlanResponse goal (llm 1) info gathered.1 now, 2)

/-- A representative LLM response that contains an ordinary JSON object. -/
def jaiResponse : String :=
  "\x7b\"duration_days\": 3, \"location\": \"Jaipur\", \"type\": \"travel\", \"key_themes\": [\"culture\"]\x7d"

/-- The dictionary the JSON object inside jaiResponse denotes. -/
def jaiParsed : Json :=
  Json.obj
    [("duration_days", .num 3), ("location", .str "Jaipur"), ("type", .str "travel"),
     ("key_themes", .arr [.str "culture"])]

/-- An LLM response with two day markers and one step under each. -/
def twoDayResp : String := "Day 1\n- a\nDay 2\n- b"

/-- Enrichment whose weather forecast has a single entry. -/
def shortWeather : PyDict :=
  [("weather", Json.obj [("forecast", Json.arr [Json.obj [("temp", Json.num 25)]])])]

/-- A plan whose created_at is a numeric-looking string. -/
def numPlan : TaskPlan := ⟨"g", "123", 1, [], Json.null⟩

/-- A plan whose created_at is an isoformat-style timestamp. -/
def isoPlan : TaskPlan := ⟨"trip", "2024-01-02T03:04:05", 1, [], Json.null⟩

/-- A concrete web-search stand-in for witnesses. -/
def sfDemo : String → Nat → Json := fun _ _ => Json.null

/-- A concrete weather stand-in for witnesses. -/
def wfDemo : Json → Json → Json := fun _ _ => Json.null

/-- A parser state with an open day holding one step. -/
def stDemo : ParseState :=
  ⟨[], some "Day 1", [⟨1, "Step 1", "a", none, none, none⟩], 1, 2⟩

/-- What C3, amended, asserts of one loop iteration on a non-empty stripped
non-marker line: the substring test against '1.', '2.', '3.', '•', '-'
decides whether a step is appended, and nothing else changes. -/
def C3Concl (enrich : PyDict) (st : ParseState) (line : String) : Prop :=
  hasStepMarker line =
    (containsSub "1." line || containsSub "2." line || containsSub "3." line ||
     containsSub "•" line || containsSub "-" line)
  ∧ processLine enrich st line =
      (if hasStepMarker line then
        .ok ⟨st.days, st.current_day, st.current_steps ++ [mkStep st.step_counter line],
             st.day_counter, st.step_counter + 1⟩
      else .ok st)

/-- What C4 asserts of one loop iteration on a non-empty stripped line: the
day-marker test is the substring test on the lower-cased line, and a marker
closes an open day with steps (appending it with the current counter and
incrementing it) and opens a new day whose theme is the line. -/
def C4Concl (enrich : PyDict) (st : ParseState) (line : String) : Prop :=
  isDayMarker line =
    (containsSub "day" (pyLowerStr line) || containsSub "день" (pyLowerStr line))
  ∧ (isDayMarker line = true →
      processLine enrich st line =
        match st.current_day, st.current_steps with
        | some d, s :: ss =>
          (weatherInfoExpr enrich st.day_counter).map (fun wi =>
            ⟨st.days ++ [⟨st.day_counter, d, s :: ss, none, wi⟩], some line, [],
             st.day_counter + 1, 1⟩)
        | _, _ => .ok ⟨st.days, some line, st.current_steps, st.day_counter, 1⟩)

/-- What C8 asserts of _gather_information: the location block runs iff the
extracted location is truthy, one search call is made per key_themes entry,
and with neither location nor themes the result is empty with no calls. -/
def C8Concl (info : PyDict) (ts : List Json) (res : PyDict)
    (calls : List ToolCall) : Prop :=
  calls =
    (if truthy ((info.lookup "location").getD .null) then
      [ToolCall.search (pyStr ((info.lookup "location").getD .null) ++
         " attractions food culture") 5,
       ToolCall.forecast ((info.lookup "location").getD .null)
         ((info.lookup "duration_days").getD (.num 1))]
    else []) ++ themeCalls ts
  ∧ (truthy ((info.lookup "location").getD .null) = false → ts = [] →
      res = [] ∧ calls = [])

/-- What C9 asserts of a TaskPlan returned by _parse_plan_response: days is
non-empty with total_days its length, and with no detected day marker or no
detected step the result is exactly the fallback plan. -/
def C9Concl (goal resp : String) (planInfo : Json) (now : String) (tp : TaskPlan) : Prop :=
  (tp.days ≠ [] ∧ tp.total_days = tp.days.length)
  ∧ ((hasMarkerLine resp = false ∨ hasStepLine resp = false) →
      tp = fallbackPlan goal resp planInfo now)

/-- C1: the claim says _analyze_goal returns the dictionary parsed from a JSON
object contained in the response, falling back only when none is found. The
code is wrong: its pattern r'{{.*}}' demands literal double braces, so a
response consisting of an ordinary single-braced JSON object — here one with
duration_days 3 and location Jaipur, which jsonLoads parses successfully — is
not matched and the hard-coded fallback is returned instead of the parsed
dictionary. -/
theorem c1_analyze_eval :
    analyzeGoal jaiResponse = .ok (Json.obj fallbackInfo)
    ∧ jsonLoads jaiResponse = .ok jaiParsed
    ∧ Json.obj fallbackInfo ≠ jaiParsed := by
  refine ⟨rfl, rfl, ?_⟩
  simp [fallbackInfo, jaiParsed]

/-- C3 counterexample: the claim says a non-empty non-marker line becomes a
step iff it starts with a digit or a bullet. Both directions fail: the line
"Visit the well-known fort" starts with 'V' yet is recorded as a step (it
contains '-'), while "4) Visit Amber Fort" starts with a digit yet is not
recorded (it contains none of '1.', '2.', '3.', '•', '-'). -/
theorem c3_counterexample :
    isDayMarker "Visit the well-known fort" = false
    ∧ startsDigitOrBullet "Visit the well-known fort" = false
    ∧ processLine [] ⟨[], some "Day 1", [], 1, 1⟩ "Visit the well-known fort"
        = .ok ⟨[], some "Day 1",
               [⟨1, "Step 1", "Visit the well-known fort", none, none, none⟩], 1, 2⟩
    ∧ isDayMarker "4) Visit Amber Fort" = false
    ∧ startsDigitOrBullet "4) Visit Amber Fort" = true
    ∧ processLine [] ⟨[], some "Day 1", [], 1, 1⟩ "4) Visit Amber Fort"
        = .ok ⟨[], some "Day 1", [], 1, 1⟩ :=
  ⟨rfl, rfl, rfl, rfl, rfl, rfl⟩

/-- C3 amended: a non-empty stripped line that is not a day marker is recorded
as a plan step if and only if it contains one of the substrings '1.', '2.',
'3.', '•', '-' anywhere in the line (not: starts with a digit or bullet);
when it is recorded, the step gets the current step counter and the
lstrip-cleaned line, and otherwise the state is unchanged. -/
theorem c3_step_detect (enrich : PyDict) (st : ParseState) (line : String)
    (h1 : pyStrip line = line) (h2 : line ≠ "") (h3 : isDayMarker line = false) :
    C3Concl enrich st line := by
  constructor
  · simp [hasStepMarker, Bool.or_assoc]
  · simp [processLine, h1, h2, h3]

/-- C3 witness: the amended theorem applied to the line "- pack bags". -/
theorem c3_witness :
    pyStrip "- pack bags" = "- pack bags"
    ∧ "- pack bags" ≠ ""
    ∧ isDayMarker "- pack bags" = false
    ∧ C3Concl [] st0 "- pack bags" :=
  ⟨rfl, by decide, rfl, c3_step_detect [] st0 "- pack bags" rfl (by decide) rfl⟩

/-- C5: on any 200-status response WebSearchTool.search returns exactly
min(num_results, 3) records, each a fixed template of the query and the index
only, and the result does not depend on the response body: two 200 responses
with different bodies yield equal results. -/
theorem c5_search (query : String) (numResults : Nat) (body : String) :
    searchRun query numResults (.ok ⟨200, body⟩)
      = (List.range (min numResults 3)).map (searchTemplate query)
    ∧ (searchRun query numResults (.ok ⟨200, body⟩)).length = min numResults 3
    ∧ ∀ body2, searchRun query numResults (.ok ⟨200, body⟩)
        = searchRun query numResults (.ok ⟨200, body2⟩) := by
  refine ⟨rfl, ?_, fun body2 => rfl⟩
  simp [searchRun]

/-- C6 counterexample: the claim says a request exception under a non-demo key
propagates to the caller. It does not: the whole body sits in a try/except
that converts the exception into the return value \x7b'error': str(e)\x7d,
as evaluating the embedded get_forecast on a raising request shows. -/
theorem c6_counterexample :
    getForecastRun "realkey" "Paris" 3 (.error "ConnectionError")
      = (errObj "ConnectionError", 1) := rfl

/-- C6 amended: with the "demo" api_key get_forecast returns the mock
dictionary (location plus `days` entries with day i+1, temp 25+i, condition
'Clear') and performs no HTTP request; with any other api_key it performs one
HTTP request whose failure is GUARDED: an exception is caught and turned into
the return value \x7b'error': str(e)\x7d, and a non-200 status yields
\x7b'error': 'Weather data unavailable'\x7d. -/
theorem c6_forecast (key loc : String) (days : Nat) (http : Except String HttpResp) :
    (key = "demo" → getForecastRun key loc days http = (mockForecast loc days, 0))
    ∧ (key ≠ "demo" →
        (getForecastRun key loc days http).2 = 1
        ∧ (∀ e, http = .error e → (getForecastRun key loc days http).1 = errObj e)
        ∧ (∀ resp, http = .ok resp → resp.status ≠ 200 →
            (getForecastRun key loc days http).1
              = errObj "Weather data unavailable")) := by
  constructor
  · intro h
    subst h
    rfl
  · intro h
    refine ⟨?_, ?_, ?_⟩
    · cases http with
      | error e => simp [getForecastRun, getForecastTry, h]
      | ok resp =>
        by_cases hs : resp.status = 200
        · cases hjl : jsonLoads resp.body with
          | error e => simp [getForecastRun, getForecastTry, h, hs, hjl]
          | ok data =>
            cases hp : processForcast data days with
            | error e => simp [getForecastRun, getForecastTry, h, hs, hjl, hp]
            | ok v => simp [getForecastRun, getForecastTry, h, hs, hjl, hp]
        · simp [getForecastRun, getForecastTry, h, hs]
    · intro e he
      subst he
      simp [getForecastRun, getForecastTry, h]
    · intro resp hr hs
      subst hr
      simp [getForecastRun, getForecastTry, h, hs]

/-- C6 witness: the amended theorem applied with the demo key and with a
non-demo key whose request raises. -/
theorem c6_witness :
    getForecastRun "demo" "Jaipur" 1 (.error "x") = (mockForecast "Jaipur" 1, 0)
    ∧ (getForecastRun "k" "L" 2 (.error "boom")).2 = 1
    ∧ (getForecastRun "k" "L" 2 (.error "boom")).1 = errObj "boom" :=
  ⟨(c6_forecast "demo" "Jaipur" 1 (.error "x")).1 rfl,
   ((c6_forecast "k" "L" 2 (.error "boom")).2 (by decide)).1,
   ((c6_forecast "k" "L" 2 (.error "boom")).2 (by decide)).2.1 "boom" rfl⟩

/-- Text accepted by the post-sign part of an integer literal consists of
digits and whitespace only. -/
theorem intLitCore_chars (l : List Char) (neg : Bool) (n : Int)
    (h : intLitCore l neg = some n) : ∀ c ∈ l, numishChar c = true := by
  intro c hc
  unfold intLitCore at h
  by_cases h1 : (l.takeWhile Char.isDigit).isEmpty = true
  · rw [if_pos h1] at h
    exact absurd h (by simp)
  · rw [if_neg h1] at h
    by_cases h2 : ((l.dropWhile Char.isDigit).dropWhile pySpace).isEmpty = true
    · have hsplit : c ∈ l.takeWhile Char.isDigit ++ l.dropWhile Char.isDigit := by
        rwa [List.takeWhile_append_dropWhile]
      rcases List.mem_append.mp hsplit with hd | hr
      · have := List.mem_takeWhile_imp hd
        simp [numishChar, this]
      · have hws : pySpace c = true := by
          have hnil := List.isEmpty_iff.mp h2
          exact List.dropWhile_eq_nil_iff.mp hnil c hr
        simp [numishChar, hws]
    · rw [if_neg h2] at h
      exact absurd h (by simp)

/-- A string the NUMERIC affinity converts contains only numeric-looking
characters. -/
theorem intLitVal_chars (s : String) (n : Int) (hv : intLitVal s = some n) :
    ∀ c ∈ s.toList, numishChar c = true := by
  intro c hc
  have hsplit : c ∈ s.toList.takeWhile pySpace ++ s.toList.dropWhile pySpace := by
    rwa [List.takeWhile_append_dropWhile]
  rcases List.mem_append.mp hsplit with hw | hr
  · have := List.mem_takeWhile_imp hw
    simp [numishChar, this]
  · unfold intLitVal at hv
    by_cases hm : (s.toList.dropWhile pySpace).head? = some '-'
    · rw [if_pos hm] at hv
      cases ht : s.toList.dropWhile pySpace with
      | nil => rw [ht] at hm; simp at hm
      | cons c0 r =>
        rw [ht] at hm hr hv
        have hc0 : c0 = '-' := by simpa using hm
        rcases List.mem_cons.mp hr with rfl | hr2
        · rw [hc0]
          decide
        · exact intLitCore_chars r true n (by simpa using hv) c hr2
    · rw [if_neg hm] at hv
      by_cases hp : (s.toList.dropWhile pySpace).head? = some '+'
      · rw [if_pos hp] at hv
        cases ht : s.toList.dropWhile pySpace with
        | nil => rw [ht] at hp; simp at hp
        | cons c0 r =>
          rw [ht] at hp hr hv
          have hc0 : c0 = '+' := by simpa using hp
          rcases List.mem_cons.mp hr with rfl | hr2
          · rw [hc0]
            decide
          · exact intLitCore_chars r false n (by simpa using hv) c hr2
      · rw [if_neg hp] at hv
        exact intLitCore_chars _ false n hv c hr

/-- A string with a clearly non-numeric character is stored verbatim. -/
theorem textPreserved_numericAffinity (s : String) (h : textPreserved s = true) :
    numericAffinity s = .str s := by
  cases hv : intLitVal s with
  | none => simp [numericAffinity, hv]
  | some n =>
    exfalso
    rw [textPreserved, List.any_eq_true] at h
    obtain ⟨c, hmem, hno⟩ := h
    have := intLitVal_chars s n hv c hmem
    simp [this] at hno

/-- C7 counterexample: the round-trip does not hold for every TaskPlan. The
created_at TIMESTAMP column has SQLite NUMERIC affinity, so the
numeric-looking created_at "123" is stored and returned as the INTEGER 123,
not the string the plan carried. -/
theorem c7_counterexample :
    getPlanById (savePlan numPlan []).1 (savePlan numPlan []).2
      = some (Json.obj
          [("id", Json.num 1), ("goal", Json.str "g"),
           ("created_at", Json.num 123), ("plan", planDict numPlan),
           ("metadata", Json.null)])
    ∧ Json.num 123 ≠ Json.str "123" := by
  refine ⟨rfl, ?_⟩
  simp

/-- C7 amended: saving a TaskPlan and fetching it by the returned id yields a
record (not None) whose goal and plan fields are the plan's own goal and its
nested dictionary serialization; the created_at field equals p.created_at
whenever the timestamp contains a character other than digits, sign, dot,
exponent letters and whitespace — as every datetime.isoformat() timestamp
the application stores does — while a purely numeric-looking created_at is
converted by the TIMESTAMP column's NUMERIC affinity (see the
counterexample). -/
theorem c7_store_roundtrip (p : TaskPlan) (db : Db)
    (h : textPreserved p.created_at = true) :
    getPlanById (savePlan p db).1 (savePlan p db).2
      = some (Json.obj
          [("id", .num ((db.length : Int) + 1)), ("goal", .str p.goal),
           ("created_at", .str p.created_at), ("plan", planDict p),
           ("metadata", p.metadata)]) := by
  have hna := textPreserved_numericAffinity p.created_at h
  simp [getPlanById, savePlan, List.getElem?_append_right, hna]

/-- C7 witness: the amended theorem applied to a plan carrying an
isoformat-style timestamp, which round-trips verbatim. -/
theorem c7_witness :
    textPreserved "2024-01-02T03:04:05" = true
    ∧ getPlanById (savePlan isoPlan []).1 (savePlan isoPlan []).2
        = some (Json.obj
            [("id", Json.num 1), ("goal", Json.str "trip"),
             ("created_at", Json.str "2024-01-02T03:04:05"),
             ("plan", planDict isoPlan), ("metadata", Json.null)]) :=
  ⟨by decide, by simpa using c7_store_roundtrip isoPlan [] (by decide)⟩

/-- C10 counterexample: _parse_plan_response is not total. On a two-day
response with an enrichment whose weather forecast has a single entry, the
indexing forecast[day_counter-1] is out of bounds when the second day closes
and IndexError is raised. -/
theorem c10_counterexample :
    parsePlanResponse "g" twoDayResp Json.null shortWeather "t"
      = .error "IndexError: list index out of range" := rfl

/-- C4: a non-empty stripped line is treated as a day marker iff its
lower-cased form contains "day" or "день" anywhere; a marker closes the
currently open day when it has at least one step — appending it with the
current day counter and the stored weather entry, incrementing the counter
and clearing the steps — and in every case starts a new day whose theme is
the marker line itself, resetting the step counter. -/
theorem c4_day_marker (enrich : PyDict) (st : ParseState) (line : String)
    (h1 : pyStrip line = line) (h2 : line ≠ "") : C4Concl enrich st line := by
  constructor
  · simp [isDayMarker]
  · intro hm
    cases hcd : st.current_day with
    | none =>
      cases hcs : st.current_steps with
      | nil => simp [processLine, h1, h2, hm, hcd, hcs]
      | cons s ss => simp [processLine, h1, h2, hm, hcd, hcs]
    | some d =>
      cases hcs : st.current_steps with
      | nil => simp [processLine, h1, h2, hm, hcd, hcs]
      | cons s ss =>
        cases hw : weatherInfoExpr enrich st.day_counter with
        | error e => simp [processLine, h1, h2, hm, hcd, hcs, hw, Except.map]
        | ok wi => simp [processLine, h1, h2, hm, hcd, hcs, hw, Except.map]

/-- C4 witness: the theorem applied to the marker line "Day 2: Forts" in a
state with an open day holding one step. -/
theorem c4_witness :
    pyStrip "Day 2: Forts" = "Day 2: Forts"
    ∧ "Day 2: Forts" ≠ ""
    ∧ C4Concl [] stDemo "Day 2: Forts" :=
  ⟨rfl, by decide, c4_day_marker [] stDemo "Day 2: Forts" rfl (by decide)⟩

/-- If the first-occurrence search succeeds, the pattern heads the drop. -/
theorem leadsWith_of_firstOccIdx (pat : List Char) :
    ∀ (cs : List Char) (i : Nat), firstOccIdx pat cs = some i →
      leadsWith pat (cs.drop i) = true := by
  intro cs
  induction cs with
  | nil =>
    intro i h
    unfold firstOccIdx at h
    split at h
    · next hE =>
      injection h with h2
      subst h2
      cases pat with
      | nil => simp [leadsWith]
      | cons a as => simp at hE
    · exact absurd h (by simp)
  | cons c t ih =>
    intro i h
    by_cases hp : leadsWith pat (c :: t) = true
    · simp [firstOccIdx, hp] at h
      subst h
      simpa using hp
    · simp [firstOccIdx, hp] at h
      cases hft : firstOccIdx pat t with
      | none => rw [hft] at h; simp at h
      | some j =>
        rw [hft] at h
        simp at h
        subst h
        simpa using ih j hft

/-- A head pattern survives taking at least its length. -/
theorem leadsWith_take :
    ∀ (pat l : List Char) (n : Nat), leadsWith pat l = true → pat.length ≤ n →
      leadsWith pat (l.take n) = true := by
  intro pat
  induction pat with
  | nil => intro l n _ _; simp [leadsWith]
  | cons a as ih =>
    intro l n h hn
    cases l with
    | nil => simp [leadsWith] at h
    | cons b bs =>
      cases n with
      | zero => simp at hn
      | succ m =>
        simp only [leadsWith, Bool.and_eq_true] at h
        simp only [List.take_succ_cons, leadsWith, Bool.and_eq_true]
        exact ⟨h.1, ih bs m h.2 (by simpa using hn)⟩

/-- A list headed by a doubled character starts with that character twice. -/
theorem leadsWith_pair (x : Char) (l : List Char) (h : leadsWith [x, x] l = true) :
    ∃ rest, l = x :: x :: rest := by
  cases l with
  | nil => simp [leadsWith] at h
  | cons b bs =>
    cases bs with
    | nil => simp [leadsWith] at h
    | cons c cs =>
      simp only [leadsWith, Bool.and_eq_true, beq_iff_eq] at h
      obtain ⟨h1, h2, -⟩ := h
      subst h1
      subst h2
      exact ⟨cs, rfl⟩

/-- Every matched text of the r'{{.*}}' search starts with a double brace. -/
theorem matchDoubleBrace_some (s m : String) (h : matchDoubleBrace s = some m) :
    ∃ rest, m.toList = braceO :: braceO :: rest := by
  unfold matchDoubleBrace at h
  cases hf : firstOccIdx [braceO, braceO] s.toList with
  | none => rw [hf] at h; simp at h
  | some i =>
    cases hl : lastOccIdx [braceC, braceC] s.toList with
    | none => rw [hf, hl] at h; simp at h
    | some j =>
      rw [hf, hl] at h
      by_cases hij : i + 2 ≤ j
      · simp only [hij, if_true] at h
        injection h with h2
        have hlw := leadsWith_of_firstOccIdx [braceO, braceO] s.toList i hf
        have hlw2 := leadsWith_take [braceO, braceO] (s.toList.drop i) (j + 2 - i) hlw
          (by simp; omega)
        obtain ⟨rest, hr⟩ := leadsWith_pair braceO _ hlw2
        exact ⟨rest, by rw [← h2]; exact hr⟩
      · simp [hij] at h

/-- json.loads fails on any input that starts with a double open brace: after
the first brace opens an object, the second brace cannot begin a property
name. -/
theorem parseValue_dbrace (n : Nat) (rest : List Char) :
    ∃ e, parseValue (n + 1) (braceO :: braceO :: rest) = .error e := by
  cases n with
  | zero => exact ⟨"RecursionError", rfl⟩
  | succ n2 => exact ⟨"Expecting property name enclosed in double quotes", rfl⟩

/-- Lifting the double-brace failure through jsonLoads. -/
theorem jsonLoads_dbrace (s : String) (rest : List Char)
    (hs : s.toList = braceO :: braceO :: rest) : ∃ e, jsonLoads s = .error e := by
  unfold jsonLoads
  rw [hs]
  have hlen : 2 * (braceO :: braceO :: rest).length + 16 = (2 * rest.length + 19) + 1 := by
    simp
    omega
  rw [hlen]
  obtain ⟨e, he⟩ := parseValue_dbrace (2 * rest.length + 19) rest
  rw [he]
  exact ⟨e, rfl⟩

/-- _analyze_goal returns normally only when the pattern does not match, and
then it returns exactly the fallback dictionary (when the pattern does match,
json.loads raises on the doubled brace and the exception propagates). -/
theorem analyzeGoal_cases (r : String) (v : Json) (h : analyzeGoal r = .ok v) :
    matchDoubleBrace r = none ∧ v = Json.obj fallbackInfo := by
  cases hm : matchDoubleBrace r with
  | none =>
    unfold analyzeGoal at h
    rw [hm] at h
    injection h with h2
    exact ⟨rfl, h2.symm⟩
  | some m =>
    exfalso
    obtain ⟨rest, hr⟩ := matchDoubleBrace_some r m hm
    obtain ⟨e, he⟩ := jsonLoads_dbrace m rest hr
    unfold analyzeGoal at h
    rw [hm] at h
    simp [he] at h

/-- Gathering on the fallback dictionary: no truthy location, one theme. -/
theorem gather_fallback (sf : String → Nat → Json) (wf : Json → Json → Json)
    (g : String) :
    gatherInformation sf wf g (.obj fallbackInfo)
      = .ok ([("theme_general planning", sf "general planning tips recommendations" 3)],
             [.search "general planning tips recommendations" 3]) := rfl

/-- C2 amended: plan invokes LLMManager.generate at most twice and never a
third time, but not always exactly twice: when the first response contains a
match of r'{{.*}}', json.loads raises inside _analyze_goal (the match starts
with a doubled brace) and plan aborts after ONE generate call; otherwise
_analyze_goal returns the fallback and exactly two calls are made. -/
theorem c2_call_count (llm : Nat → String) (sf : String → Nat → Json)
    (wf : Json → Json → Json) (goal now : String) :
    (planRun llm sf wf goal now).2
      = if matchDoubleBrace (llm 0) = none then 2 else 1 := by
  cases hm : matchDoubleBrace (llm 0) with
  | none =>
    have ha : analyzeGoal (llm 0) = .ok (Json.obj fallbackInfo) := by
      unfold analyzeGoal
      rw [hm]
    simp [planRun, ha, gather_fallback]
  | some m =>
    obtain ⟨rest, hr⟩ := matchDoubleBrace_some _ _ hm
    obtain ⟨e, he⟩ := jsonLoads_dbrace m rest hr
    have ha : analyzeGoal (llm 0) = .error e := by
      unfold analyzeGoal
      rw [hm]
      simp [he]
    simp [planRun, ha]

/-- C2 counterexample: the claim says no input causes fewer than two generate
calls. With an LLM whose first response is "{{}}" (matched by the pattern,
rejected by json.loads), plan makes exactly one generate call and aborts. -/
theorem c2_counterexample :
    (planRun (fun _ => "\x7b\x7b\x7d\x7d") sfDemo wfDemo "any goal" "t").2 = 1
    ∧ (planRun (fun _ => "\x7b\x7b\x7d\x7d") sfDemo wfDemo "any goal" "t").2 ≠ 2 :=
  ⟨rfl, by decide⟩

/-- The calls accumulated by the key_themes loop: one search per entry. -/
theorem gatherThemes_snd (sf : String → Nat → Json) :
    ∀ (ts : List Json) (d : PyDict) (c : List ToolCall),
      (gatherThemes sf ts d c).2 = c ++ themeCalls ts := by
  intro ts
  induction ts with
  | nil => intro d c; simp [gatherThemes, themeCalls]
  | cons t ts ih =>
    intro d c
    rw [gatherThemes, ih]
    simp [themeCalls]

/-- C8: _gather_information performs the location web search and the weather
lookup (with the extracted location and duration_days, defaulting to 1) iff
plan_info's location is truthy, performs one web search per key_themes entry,
and with no truthy location and no themes returns an empty dictionary having
called neither tool. -/
theorem c8_gather (sf : String → Nat → Json) (wf : Json → Json → Json)
    (goal : String) (info : PyDict) (ts : List Json) (res : PyDict)
    (calls : List ToolCall)
    (h1 : iterElems ((info.lookup "key_themes").getD (.arr [])) = .ok ts)
    (h2 : gatherInformation sf wf goal (.obj info) = .ok (res, calls)) :
    C8Concl info ts res calls := by
  by_cases hl : truthy ((info.lookup "location").getD .null) = true
  · simp only [gatherInformation, h1, hl, if_true] at h2
    rw [Except.ok.injEq] at h2
    have hc := congrArg Prod.snd h2
    rw [gatherThemes_snd] at hc
    constructor
    · simp only [hl, if_true]
      exact hc.symm
    · intro hfalse
      rw [hl] at hfalse
      exact absurd hfalse (by simp)
  · have hl2 : truthy ((info.lookup "location").getD .null) = false := by
      revert hl
      cases truthy ((info.lookup "location").getD .null) <;> simp
    simp only [gatherInformation, h1, hl2, Bool.false_eq_true, if_false] at h2
    rw [Except.ok.injEq] at h2
    have hc := congrArg Prod.snd h2
    rw [gatherThemes_snd] at hc
    constructor
    · simp only [hl2, Bool.false_eq_true, if_false]
      simpa using hc.symm
    · intro _ hts
      subst hts
      simp [gatherThemes] at h2
      exact ⟨h2.1, h2.2⟩

/-- C8 witness: the theorem applied to the fallback dictionary, whose location
is None and whose single theme triggers exactly one search call. -/
theorem c8_witness :
    iterElems ((fallbackInfo.lookup "key_themes").getD (.arr []))
      = .ok [Json.str "general planning"]
    ∧ gatherInformation sfDemo wfDemo "g" (.obj fallbackInfo)
        = .ok ([("theme_general planning", Json.null)],
               [.search "general planning tips recommendations" 3])
    ∧ C8Concl fallbackInfo [Json.str "general planning"]
        [("theme_general planning", Json.null)]
        [.search "general planning tips recommendations" 3] :=
  ⟨rfl, rfl,
   c8_gather sfDemo wfDemo "g" fallbackInfo [Json.str "general planning"]
     [("theme_general planning", Json.null)]
     [.search "general planning tips recommendations" 3] rfl rfl⟩

/-- Without a truthy weather entry the weather expression yields None. -/
theorem weatherInfoExpr_falsy (enrich : PyDict) (k : Nat)
    (h : truthy ((enrich.lookup "weather").getD Json.null) = false) :
    weatherInfoExpr enrich k = .ok none := by
  simp [weatherInfoExpr, h]

/-- Without a truthy weather entry one loop iteration never raises. -/
theorem processLine_falsy (enrich : PyDict) (st : ParseState) (rawLine : String)
    (h : truthy ((enrich.lookup "weather").getD Json.null) = false) :
    ∃ st2, processLine enrich st rawLine = .ok st2 := by
  unfold processLine
  dsimp only
  split
  · exact ⟨st, rfl⟩
  · split
    · split
      · rw [weatherInfoExpr_falsy enrich st.day_counter h]
        exact ⟨_, rfl⟩
      · exact ⟨_, rfl⟩
    · split
      · exact ⟨_, rfl⟩
      · exact ⟨st, rfl⟩

/-- Without a truthy weather entry the whole loop never raises. -/
theorem processLines_falsy (enrich : PyDict)
    (h : truthy ((enrich.lookup "weather").getD Json.null) = false) :
    ∀ (lines : List String) (st : ParseState),
      ∃ st2, processLines enrich st lines = .ok st2 := by
  intro lines
  induction lines with
  | nil => intro st; exact ⟨st, rfl⟩
  | cons l ls ih =>
    intro st
    obtain ⟨st2, h2⟩ := processLine_falsy enrich st l h
    obtain ⟨st3, h3⟩ := ih st2
    exact ⟨st3, by simp only [processLines, h2, h3]⟩

/-- Without a truthy weather entry the final close never raises. -/
theorem closeLast_falsy (enrich : PyDict) (st : ParseState)
    (h : truthy ((enrich.lookup "weather").getD Json.null) = false) :
    ∃ ds, closeLast enrich st = .ok ds := by
  unfold closeLast
  split
  · rw [weatherInfoExpr_falsy enrich st.day_counter h]
    exact ⟨_, rfl⟩
  · exact ⟨_, rfl⟩

/-- C10 amended: _parse_plan_response returns a TaskPlan without raising
whenever enrichment_data has no truthy 'weather' entry; it is NOT total in
general — with a truthy weather whose forecast list is shorter than the
number of closed days the forecast indexing raises IndexError (see the
counterexample). -/
theorem c10_total (goal resp : String) (planInfo : Json) (enrich : PyDict)
    (now : String)
    (h : truthy ((enrich.lookup "weather").getD Json.null) = false) :
    ∃ tp, parsePlanResponse goal resp planInfo enrich now = .ok tp := by
  obtain ⟨st2, h2⟩ := processLines_falsy enrich h (pySplitLines resp) st0
  obtain ⟨ds, h3⟩ := closeLast_falsy enrich st2 h
  exact ⟨⟨goal, now, (if ds.isEmpty then fallbackDays resp else ds).length,
          if ds.isEmpty then fallbackDays resp else ds, planInfo⟩,
    by simp only [parsePlanResponse, h2, h3]⟩

/-- C10 witness: the amended theorem applied with an empty enrichment. -/
theorem c10_witness :
    truthy ((([] : PyDict).lookup "weather").getD Json.null) = false
    ∧ ∃ tp, parsePlanResponse "g" "hello" Json.null [] "t" = .ok tp :=
  ⟨rfl, c10_total "g" "hello" Json.null [] "t" rfl⟩

/-- A line that is blank or not a day marker preserves current_day and days. -/
theorem processLine_noMarker (enrich : PyDict) (st : ParseState) (l : String)
    (hl : pyStrip l = "" ∨ isDayMarker (pyStrip l) = false) :
    ∃ st2, processLine enrich st l = .ok st2
      ∧ st2.current_day = st.current_day ∧ st2.days = st.days := by
  unfold processLine
  dsimp only
  by_cases h0 : pyStrip l = ""
  · rw [if_pos h0]
    exact ⟨st, rfl, rfl, rfl⟩
  · have h1 : isDayMarker (pyStrip l) = false := by
      rcases hl with h | h
      · exact absurd h h0
      · exact h
    rw [if_neg h0, if_neg (by simp [h1])]
    split
    · exact ⟨_, rfl, rfl, rfl⟩
    · exact ⟨st, rfl, rfl, rfl⟩

/-- Over lines with no day marker, current_day and days are preserved. -/
theorem processLines_noMarker (enrich : PyDict) :
    ∀ (lines : List String) (st : ParseState),
      (∀ l ∈ lines, pyStrip l = "" ∨ isDayMarker (pyStrip l) = false) →
      ∃ st2, processLines enrich st lines = .ok st2
        ∧ st2.current_day = st.current_day ∧ st2.days = st.days := by
  intro lines
  induction lines with
  | nil => intro st _; exact ⟨st, rfl, rfl, rfl⟩
  | cons l ls ih =>
    intro st h
    obtain ⟨st2, he, hc, hd⟩ := processLine_noMarker enrich st l (h l (by simp))
    obtain ⟨st3, he3, hc3, hd3⟩ := ih st2 (fun x hx => h x (by simp [hx]))
    exact ⟨st3, by simp only [processLines, he, he3], by rw [hc3, hc], by rw [hd3, hd]⟩

/-- With no accumulated steps, a line that is blank, a marker, or not a step
keeps the step list empty and the days unchanged. -/
theorem processLine_noStep (enrich : PyDict) (st : ParseState) (l : String)
    (hst : st.current_steps = [])
    (hl : pyStrip l = "" ∨ isDayMarker (pyStrip l) = true ∨ hasStepMarker (pyStrip l) = false) :
    ∃ st2, processLine enrich st l = .ok st2
      ∧ st2.current_steps = [] ∧ st2.days = st.days := by
  unfold processLine
  dsimp only
  by_cases h0 : pyStrip l = ""
  · rw [if_pos h0]
    exact ⟨st, rfl, hst, rfl⟩
  · by_cases hm : isDayMarker (pyStrip l) = true
    · rw [if_neg h0, if_pos hm, hst]
      cases hcd : st.current_day with
      | none => exact ⟨_, rfl, rfl, rfl⟩
      | some d => exact ⟨_, rfl, rfl, rfl⟩
    · have h2 : hasStepMarker (pyStrip l) = false := by
        rcases hl with h | h | h
        · exact absurd h h0
        · exact absurd h hm
        · exact h
      rw [if_neg h0, if_neg hm, if_neg (by simp [h2])]
      exact ⟨st, rfl, hst, rfl⟩

/-- Over lines with no detected step, steps stay empty and days unchanged. -/
theorem processLines_noStep (enrich : PyDict) :
    ∀ (lines : List String) (st : ParseState),
      st.current_steps = [] →
      (∀ l ∈ lines, pyStrip l = "" ∨ isDayMarker (pyStrip l) = true
        ∨ hasStepMarker (pyStrip l) = false) →
      ∃ st2, processLines enrich st lines = .ok st2
        ∧ st2.current_steps = [] ∧ st2.days = st.days := by
  intro lines
  induction lines with
  | nil => intro st hst _; exact ⟨st, rfl, hst, rfl⟩
  | cons l ls ih =>
    intro st hst h
    obtain ⟨st2, he, hc, hd⟩ := processLine_noStep enrich st l hst (h l (by simp))
    obtain ⟨st3, he3, hc3, hd3⟩ := ih st2 hc (fun x hx => h x (by simp [hx]))
    exact ⟨st3, by simp only [processLines, he, he3], hc3, by rw [hd3, hd]⟩

/-- C9: every TaskPlan returned by _parse_plan_response has a non-empty days
list with total_days equal to its length; and when the response has no
detected day marker or no detected step line, the result is exactly one
fallback day themed "Day 1: Main Plan" whose single step description is the
first 500 characters of the raw response. -/
theorem c9_invariant (goal resp : String) (planInfo : Json) (enrich : PyDict)
    (now : String) (tp : TaskPlan)
    (h : parsePlanResponse goal resp planInfo enrich now = .ok tp) :
    C9Concl goal resp planInfo now tp := by
  unfold parsePlanResponse at h
  cases hpl : processLines enrich st0 (pySplitLines resp) with
  | error e => rw [hpl] at h; simp at h
  | ok st =>
    rw [hpl] at h
    dsimp only at h
    cases hcl : closeLast enrich st with
    | error e => rw [hcl] at h; simp at h
    | ok ds =>
      rw [hcl] at h
      dsimp only at h
      rw [Except.ok.injEq] at h
      constructor
      · rw [← h]
        constructor
        · by_cases hds : ds.isEmpty
          · simp [hds, fallbackDays]
          · simp only [hds, if_false]
            simpa using hds
        · rfl
      · intro hcond
        have hds : ds = [] := by
          rcases hcond with hmarker | hstep
          · have hall : ∀ l ∈ pySplitLines resp,
                pyStrip l = "" ∨ isDayMarker (pyStrip l) = false := by
              intro l hlmem
              rw [hasMarkerLine, List.any_eq_false] at hmarker
              have hthis := hmarker l hlmem
              simp only [Bool.and_eq_true, bne_iff_ne, ne_eq, not_and] at hthis
              by_cases hz : pyStrip l = ""
              · exact Or.inl hz
              · exact Or.inr (by simpa using hthis hz)
            obtain ⟨st2, he2, hc2, hd2⟩ := processLines_noMarker enrich (pySplitLines resp) st0 hall
            rw [hpl] at he2
            injection he2 with he2
            subst he2
            have hcd : st.current_day = none := by rw [hc2]; rfl
            have hdays : st.days = [] := by rw [hd2]; rfl
            have : closeLast enrich st = .ok st.days := by
              unfold closeLast
              rw [hcd]
            rw [hcl] at this
            injection this with this
            rw [this, hdays]
          · have hall : ∀ l ∈ pySplitLines resp,
                pyStrip l = "" ∨ isDayMarker (pyStrip l) = true
                  ∨ hasStepMarker (pyStrip l) = false := by
              intro l hlmem
              rw [hasStepLine, List.any_eq_false] at hstep
              have hthis := hstep l hlmem
              simp only [Bool.and_eq_true, bne_iff_ne, ne_eq, not_and] at hthis
              by_cases hz : pyStrip l = ""
              · exact Or.inl hz
              · by_cases hmk : isDayMarker (pyStrip l) = true
                · exact Or.inr (Or.inl hmk)
                · have hs := hthis ⟨hz, by simp [hmk]⟩
                  exact Or.inr (Or.inr (by simpa using hs))
            obtain ⟨st2, he2, hc2, hd2⟩ := processLines_noStep enrich (pySplitLines resp) st0 rfl hall
            rw [hpl] at he2
            injection he2 with he2
            subst he2
            have hdays : st.days = [] := by rw [hd2]; rfl
            have : closeLast enrich st = .ok st.days := by
              unfold closeLast
              rw [hc2]
              cases st.current_day <;> rfl
            rw [hcl] at this
            injection this with this
            rw [this, hdays]
        subst hds
        rw [← h]
        rfl

/-- C9 witness: the theorem applied to a response with no marker and no step,
which parses to the fallback plan. -/
theorem c9_witness :
    parsePlanResponse "g" "hello" Json.null [] "t"
      = .ok (fallbackPlan "g" "hello" Json.null "t")
    ∧ C9Concl "g" "hello" Json.null "t" (fallbackPlan "g" "hello" Json.null "t") :=
  ⟨rfl, c9_invariant "g" "hello" Json.null [] "t" (fallbackPlan "g" "hello" Json.null "t") rfl⟩

end Planner
